import Mathlib

/-!
Verification development for the flamegraph-analyzer analysis pipeline
(`scripts/ai-flamegraph-analyzer.py`).

The pipeline is embedded shallowly:
* Python strings become `String`; lists become `List`.
* Python floats become `ℚ` (the analyzer only parses decimal literals from
  the profiler table and compares/sums them; `inf`/`nan`/underscore literals
  and binary-double rounding at exact ties in `.1f` formatting are outside
  the modelled subset and are never produced by the inputs considered here).
* The impure reads of `generate_report` (`datetime.now()`, the profile name
  and path held on the analyzer object) become explicit `String` parameters.
* Fallible dictionary lookups / list indexing become `Option`.
-/

namespace Flamegraph

/-- Characters treated as whitespace by Python's default `str.split()` /
`str.strip()` (the ASCII subset; the profiler table is ASCII). -/
def pySpace (c : Char) : Bool :=
  c = ' ' || c = '\t' || c = '\n' || c = '\r' || c = '\x0b' || c = '\x0c'

/-- Split a character list at newline characters, keeping empty pieces,
mirroring Python `text.split('\n')` (so the empty string yields `[[]]`). -/
def splitLinesAux (cur : List Char) : List Char → List (List Char)
  | [] => [cur.reverse]
  | c :: t => if c = '\n' then cur.reverse :: splitLinesAux [] t else splitLinesAux (c :: cur) t

/-- The lines of the raw profiler output, as in `top_output.split('\n')`. -/
def pyLines (s : String) : List String := (splitLinesAux [] s.data).map String.mk

/-- Whitespace tokenization: accumulate the current (reversed) token and cut
at whitespace runs, as in Python `line.split()` (empty tokens dropped). -/
def tokensAux (cur : List Char) : List Char → List (List Char)
  | [] => if cur = [] then [] else [cur.reverse]
  | c :: t =>
    if pySpace c then
      (if cur = [] then tokensAux [] t else cur.reverse :: tokensAux [] t)
    else tokensAux (c :: cur) t

/-- The whitespace-separated tokens of a line (`line.split()`). -/
def pyTokens (l : String) : List String := (tokensAux [] l.data).map String.mk

/-- Python `not line.strip()`: the line is blank after trimming whitespace. -/
def isBlank (l : String) : Bool := l.data.all pySpace

/-- Python `tok.rstrip('%')`: drop every trailing percent sign. -/
def rstripPct (s : String) : String :=
  String.mk ((s.data.reverse.dropWhile (fun c => c = '%')).reverse)

/-- Boolean infix test on character lists (is `pat` a contiguous sublist?). -/
def infixOfB (pat : List Char) : List Char → Bool
  | [] => pat.isEmpty
  | c :: t => pat.isPrefixOf (c :: t) || infixOfB pat t

/-- Python's substring containment `pat in s`. -/
def containsSubstr (s pat : String) : Bool := infixOfB pat.data s.data

/-- The header test of `parse_top_output`: `'flat' in line and 'cum' in line`. -/
def headerLike (l : String) : Bool := containsSubstr l "flat" && containsSubstr l "cum"

/-- Numeric value of a digit run. -/
def digitsVal (ds : List Char) : ℕ := ds.foldl (fun a c => 10 * a + (c.toNat - 48)) 0

/-- Parse an optional exponent suffix (`e`/`E`, optional sign, digits) and
scale the mantissa accordingly; any other trailing text fails. -/
def parseExpPart (r : List Char) (m : ℚ) : Option ℚ :=
  match r with
  | [] => some m
  | c :: r2 =>
    if c = 'e' || c = 'E' then
      let sr : ℤ × List Char :=
        match r2 with
        | '+' :: t => (1, t)
        | '-' :: t => (-1, t)
        | t => (1, t)
      let eds := sr.2.takeWhile Char.isDigit
      let r4 := sr.2.dropWhile Char.isDigit
      if eds = [] || r4 ≠ [] then none
      else some (m * (10 : ℚ) ^ (sr.1 * (digitsVal eds : ℤ)))
    else none

/-- Parse an unsigned decimal literal (`digits`, `digits.digits`, `.digits`,
`digits.`), with optional exponent, as Python `float` does on such text. -/
def pyFloatCore (cs : List Char) : Option ℚ :=
  let intDs := cs.takeWhile Char.isDigit
  let r1 := cs.dropWhile Char.isDigit
  match r1 with
  | '.' :: r2 =>
    let fracDs := r2.takeWhile Char.isDigit
    let r3 := r2.dropWhile Char.isDigit
    if intDs = [] && fracDs = [] then none
    else parseExpPart r3 ((digitsVal intDs : ℚ) + (digitsVal fracDs : ℚ) / (10 : ℚ) ^ fracDs.length)
  | _ => if intDs = [] then none else parseExpPart r1 (digitsVal intDs)

/-- Python `float(s)` on the decimal-literal subset: surrounding whitespace is
ignored and an optional sign precedes the literal; failure is `none`
(modelling the `ValueError` caught by the parser's `try`). -/
def pyFloat? (s : String) : Option ℚ :=
  let cs := (s.data.dropWhile pySpace).reverse.dropWhile pySpace |>.reverse
  match cs with
  | '+' :: t => pyFloatCore t
  | '-' :: t => (pyFloatCore t).map (fun q => -q)
  | t => pyFloatCore t

/-- One row of the profiler table (`functions.append({...})`). -/
structure FunctionStat where
  flat_time : String
  flat_pct : ℚ
  cum_time : String
  cum_pct : ℚ
  name : String
deriving Repr, DecidableEq

/-- One classified hotspot (`hotspots.append({...})`). -/
structure Hotspot where
  function : String
  flat_pct : ℚ
  cum_pct : ℚ
  priority : String
  issues : List String
deriving Repr, DecidableEq

/-- One synthesized recommendation (`recommendations.append({...})`). -/
structure Recommendation where
  category : String
  priority : String
  issue : String
  suggestions : List String
deriving Repr, DecidableEq

/-- The body of the `for line in lines` loop of `parse_top_output`.  The state
is `(data_started, functions)`.  A line containing both `"flat"` and `"cum"`
(re)starts the data section and is itself skipped; before the header, and on
blank lines, nothing happens; otherwise the line is tokenized, lines with
fewer than 6 tokens are dropped, the two percentage tokens are parsed
(failure drops the whole line, as the `try`/`except` does), and a
`FunctionStat` is appended. -/
def parseLineStep (st : Bool × List FunctionStat) (line : String) : Bool × List FunctionStat :=
  if headerLike line then (true, st.2)
  else if !st.1 || isBlank line then st
  else if (pyTokens line).length ≥ 6 then
    match pyFloat? (rstripPct ((pyTokens line).getD 1 "")),
        pyFloat? (rstripPct ((pyTokens line).getD 4 "")) with
    | some fp, some cp =>
      (st.1, st.2 ++ [⟨(pyTokens line).getD 0 "", fp, (pyTokens line).getD 3 "", cp,
        String.intercalate " " ((pyTokens line).drop 5)⟩])
    | _, _ => st
  else st

/-- Run the parsing loop over a list of lines. -/
def parseLines (ls : List String) : List FunctionStat :=
  (ls.foldl parseLineStep (false, [])).2

/-- `FlamegraphAnalyzer.parse_top_output`. -/
def parse_top_output (s : String) : List FunctionStat := parseLines (pyLines s)

/-- Round a rational to the nearest integer, ties to even (the rounding of
Python's fixed-point formatting, on the exact rational value). -/
def roundHalfEven (x : ℚ) : ℤ :=
  let fl := ⌊x⌋
  let fr := x - (fl : ℚ)
  if fr < 1 / 2 then fl
  else if 1 / 2 < fr then fl + 1
  else if fl % 2 = 0 then fl else fl + 1

/-- Render a nonnegative number of tenths as `<int>.<digit>`. -/
def decStr (n : ℤ) : String := toString (n / 10) ++ "." ++ toString (n % 10)

/-- Python's `f"{x:.1f}"` on the modelled rationals. -/
def formatFix1 (q : ℚ) : String :=
  if q < 0 then "-" ++ decStr (roundHalfEven (10 * -q)) else decStr (roundHalfEven (10 * q))

/-- Python `s.lower()` (the ASCII subset relevant to the keyword lists). -/
def pyLower (s : String) : String := String.mk (s.data.map Char.toLower)

/-- Case-insensitive keyword containment:
`any(pattern in func['name'].lower() for pattern in pats)`. -/
def kwMatch (name : String) (pats : List String) : Bool :=
  pats.any (fun p => containsSubstr (pyLower name) p)

/-- Classifier rule 1 (`flat_pct`): above 10 sets HIGH, else above 5 sets
MEDIUM, and records the direct-CPU issue.  The state is `(priority, issues)`. -/
def rule1 (f : FunctionStat) (s : String × List String) : String × List String :=
  if f.flat_pct > 10 then
    ("HIGH", s.2 ++ ["Consumes " ++ formatFix1 f.flat_pct ++ "% CPU directly"])
  else if f.flat_pct > 5 then
    ("MEDIUM", s.2 ++ ["Consumes " ++ formatFix1 f.flat_pct ++ "% CPU directly"])
  else s

/-- Classifier rule 2 (`cum_pct > 20`): raise to MEDIUM unless already HIGH. -/
def rule2 (f : FunctionStat) (s : String × List String) : String × List String :=
  if f.cum_pct > 20 then
    ((if s.1 = "HIGH" then s.1 else "MEDIUM"),
      s.2 ++ ["Call tree consumes " ++ formatFix1 f.cum_pct ++ "% total CPU"])
  else s

/-- Classifier rule 3 (gc/garbage/sweep): record the GC issue; `flat_pct > 5`
sets HIGH. -/
def rule3 (f : FunctionStat) (s : String × List String) : String × List String :=
  if kwMatch f.name ["gc", "garbage", "sweep"] then
    ((if f.flat_pct > 5 then "HIGH" else s.1), s.2 ++ ["Garbage collection overhead"])
  else s

/-- Classifier rule 4 (lock/mutex/sync): record the locking issue;
`flat_pct > 3` sets HIGH. -/
def rule4 (f : FunctionStat) (s : String × List String) : String × List String :=
  if kwMatch f.name ["lock", "mutex", "sync"] then
    ((if f.flat_pct > 3 then "HIGH" else s.1), s.2 ++ ["Synchronization/locking detected"])
  else s

/-- Classifier rule 5 (json/marshal/unmarshal): record the serialization
issue; `flat_pct > 5` assigns MEDIUM (the source assigns unconditionally,
with no not-already-HIGH guard). -/
def rule5 (f : FunctionStat) (s : String × List String) : String × List String :=
  if kwMatch f.name ["json", "marshal", "unmarshal"] then
    ((if f.flat_pct > 5 then "MEDIUM" else s.1), s.2 ++ ["JSON serialization overhead"])
  else s

/-- Classifier rule 6 (sql/query/exec): record the database issue;
`flat_pct > 5` sets HIGH. -/
def rule6 (f : FunctionStat) (s : String × List String) : String × List String :=
  if kwMatch f.name ["sql", "query", "exec"] then
    ((if f.flat_pct > 5 then "HIGH" else s.1), s.2 ++ ["Database query overhead"])
  else s

/-- Classifier rule 7 (reflect): record the reflection issue; `flat_pct > 3`
assigns MEDIUM (again with no not-already-HIGH guard in the source). -/
def rule7 (f : FunctionStat) (s : String × List String) : String × List String :=
  if kwMatch f.name ["reflect"] then
    ((if f.flat_pct > 3 then "MEDIUM" else s.1), s.2 ++ ["Reflection usage (slow)"])
  else s

/-- Classifier rule 8 (regex/regexp): record the issue, no escalation. -/
def rule8 (f : FunctionStat) (s : String × List String) : String × List String :=
  if kwMatch f.name ["regex", "regexp"] then (s.1, s.2 ++ ["Regular expression overhead"])
  else s

/-- Classifier rule 9 (syscall): record the issue, no escalation. -/
def rule9 (f : FunctionStat) (s : String × List String) : String × List String :=
  if kwMatch f.name ["syscall"] then (s.1, s.2 ++ ["System call overhead"])
  else s

/-- The per-record body of `identify_hotspots`: starting from
`priority = 'LOW'`, `issues = []`, apply the nine rules in source order. -/
def classifyState (f : FunctionStat) : String × List String :=
  rule9 f (rule8 f (rule7 f (rule6 f (rule5 f (rule4 f (rule3 f (rule2 f (rule1 f ("LOW", [])))))))))

/-- The intermediate states of one record's rule evaluation: the initial
state followed by the state after each of the nine rules. -/
def stateTrace (f : FunctionStat) : List (String × List String) :=
  let s1 := rule1 f ("LOW", [])
  let s2 := rule2 f s1
  let s3 := rule3 f s2
  let s4 := rule4 f s3
  let s5 := rule5 f s4
  let s6 := rule6 f s5
  let s7 := rule7 f s6
  let s8 := rule8 f s7
  let s9 := rule9 f s8
  [("LOW", []), s1, s2, s3, s4, s5, s6, s7, s8, s9]

/-- The priority assigned after each rule, in rule-evaluation order. -/
def classifyTrace (f : FunctionStat) : List String := (stateTrace f).map Prod.fst

/-- The ordinal of a priority under LOW < MEDIUM < HIGH. -/
def prioRank (p : String) : ℕ :=
  if p = "HIGH" then 2 else if p = "MEDIUM" then 1 else 0

/-- The `if issues:` guard of `identify_hotspots`: a record yields a finding
exactly when its issue list is non-empty. -/
def hotspotOf (f : FunctionStat) : Option Hotspot :=
  let s := classifyState f
  if s.2 = [] then none else some ⟨f.name, f.flat_pct, f.cum_pct, s.1, s.2⟩

/-- `FlamegraphAnalyzer.identify_hotspots`: classify each record in order,
appending one finding per record that triggered at least one rule. -/
def identify_hotspots (funcs : List FunctionStat) : List Hotspot :=
  funcs.foldl (fun acc f => match hotspotOf f with | some h => acc ++ [h] | none => acc) []

/-- The `elif` chain of `generate_recommendations` that files one issue
string into an issue group, by substring match on the lower-cased issue
text; the first matching group wins. -/
def issueCategory (issue : String) : Option String :=
  let low := pyLower issue
  if containsSubstr low "garbage collection" then some "gc"
  else if containsSubstr low "synchronization" || containsSubstr low "locking" then some "lock"
  else if containsSubstr low "json" then some "json"
  else if containsSubstr low "database" then some "sql"
  else if containsSubstr low "reflection" then some "reflect"
  else if containsSubstr low "regular expression" then some "regex"
  else if containsSubstr low "system call" then some "syscall"
  else none

/-- The contents of `issue_groups[key]` after the grouping loops: a hotspot
is appended once per issue of its that files under `key` (hotspot order,
then issue order). -/
def groupFor (key : String) (hs : List Hotspot) : List Hotspot :=
  hs.foldl
    (fun acc h =>
      acc ++ h.issues.filterMap (fun i => if issueCategory i = some key then some h else none))
    []

/-- Sum of the `flat_pct` of a group, e.g. `sum(h['flat_pct'] for h in ...)`. -/
def sumFlat (g : List Hotspot) : ℚ := (g.map Hotspot.flat_pct).sum

/-- The fixed Memory Management suggestion list. -/
def gcSuggestions : List String :=
  ["Reduce allocations using object pooling (sync.Pool)",
   "Pre-allocate slices and maps with known capacity",
   "Use value types instead of pointers where possible",
   "Consider increasing GOGC value if memory permits"]

/-- The fixed Concurrency suggestion list. -/
def lockSuggestions : List String :=
  ["Reduce lock granularity (use more fine-grained locks)",
   "Replace mutexes with channels where appropriate",
   "Use sync.RWMutex for read-heavy workloads",
   "Consider lock-free data structures",
   "Run blocking profile: make profile-block"]

/-- The fixed Serialization suggestion list. -/
def jsonSuggestions : List String :=
  ["Use json.RawMessage for delayed parsing",
   "Consider faster alternatives (easyjson, jsoniter)",
   "Batch JSON operations",
   "Use streaming for large payloads"]

/-- The fixed Database suggestion list. -/
def sqlSuggestions : List String :=
  ["Add indexes for slow queries",
   "Use prepared statements",
   "Implement caching layer (Redis)",
   "Batch database operations",
   "Consider connection pooling optimization"]

/-- The fixed Code Generation suggestion list. -/
def reflectSuggestions : List String :=
  ["Replace reflection with code generation",
   "Cache reflection results",
   "Use concrete types instead of interface\x7b\x7d",
   "Consider compile-time alternatives"]

/-- The Memory Management entry (emitted when the gc group is non-empty):
HIGH when the group's flat-percentage total exceeds 10, else MEDIUM. -/
def recGc (hs : List Hotspot) : Recommendation :=
  ⟨"Memory Management", if sumFlat (groupFor "gc" hs) > 10 then "HIGH" else "MEDIUM",
   "GC overhead: " ++ formatFix1 (sumFlat (groupFor "gc" hs)) ++ "% CPU", gcSuggestions⟩

/-- The Concurrency entry: HIGH when the lock total exceeds 5, else MEDIUM. -/
def recLock (hs : List Hotspot) : Recommendation :=
  ⟨"Concurrency", if sumFlat (groupFor "lock" hs) > 5 then "HIGH" else "MEDIUM",
   "Lock contention: " ++ formatFix1 (sumFlat (groupFor "lock" hs)) ++ "% CPU", lockSuggestions⟩

/-- The Serialization entry: MEDIUM when the json total exceeds 5, else LOW. -/
def recJson (hs : List Hotspot) : Recommendation :=
  ⟨"Serialization", if sumFlat (groupFor "json" hs) > 5 then "MEDIUM" else "LOW",
   "JSON overhead: " ++ formatFix1 (sumFlat (groupFor "json" hs)) ++ "% CPU", jsonSuggestions⟩

/-- The Database entry: HIGH when the sql total exceeds 10, else MEDIUM. -/
def recSql (hs : List Hotspot) : Recommendation :=
  ⟨"Database", if sumFlat (groupFor "sql" hs) > 10 then "HIGH" else "MEDIUM",
   "Database overhead: " ++ formatFix1 (sumFlat (groupFor "sql" hs)) ++ "% CPU", sqlSuggestions⟩

/-- The Code Generation entry: always MEDIUM. -/
def recReflect (hs : List Hotspot) : Recommendation :=
  ⟨"Code Generation", "MEDIUM",
   "Reflection overhead: " ++ formatFix1 (sumFlat (groupFor "reflect" hs)) ++ "% CPU",
   reflectSuggestions⟩

/-- `FlamegraphAnalyzer.generate_recommendations`: one entry per non-empty
issue group, in the source's fixed order gc, lock, json, sql, reflect (the
regex and syscall groups yield no entry). -/
def generate_recommendations (hs : List Hotspot) : List Recommendation :=
  (if groupFor "gc" hs = [] then [] else [recGc hs]) ++
  (if groupFor "lock" hs = [] then [] else [recLock hs]) ++
  (if groupFor "json" hs = [] then [] else [recJson hs]) ++
  (if groupFor "sql" hs = [] then [] else [recSql hs]) ++
  (if groupFor "reflect" hs = [] then [] else [recReflect hs])

/-- The renderer's priority-to-emoji dictionary; a lookup with an unknown
key would raise `KeyError` in Python, hence `Option`. -/
def priorityEmoji (p : String) : Option String :=
  if p = "HIGH" then some "🔴" else if p = "MEDIUM" then some "🟡"
  else if p = "LOW" then some "🟢" else none

/-- A run of `f.write(f"- {item}\n")` lines. -/
def dashLines (items : List String) : String :=
  String.join (items.map (fun s => "- " ++ s ++ "\n"))

/-- The Executive Summary body: top hotspot (first finding), its direct CPU
percentage and priority, and the count of HIGH findings; or the no-hotspots
text. -/
def summarySection (hs : List Hotspot) : String :=
  match hs with
  | [] => "No significant hotspots detected. Performance appears optimal.\n\n"
  | top :: _ =>
    "**Top Hotspot:** `" ++ top.function ++ "`\n" ++
    "- **CPU Usage:** " ++ formatFix1 top.flat_pct ++ "% (direct)\n" ++
    "- **Priority:** " ++ top.priority ++ "\n\n" ++
    "**Critical Issues:** " ++
    toString (hs.filter (fun h => h.priority == "HIGH")).length ++
    " high-priority hotspots found\n\n"

/-- One numbered hotspot entry of the report (`### {i}. {emoji} ...`). -/
def hotspotEntry (i : ℕ) (h : Hotspot) : Option String :=
  (priorityEmoji h.priority).map (fun e =>
    "### " ++ toString i ++ ". " ++ e ++ " " ++ h.priority ++ " Priority\n\n" ++
    "**Function:** `" ++ h.function ++ "`\n\n" ++
    "**Metrics:**\n" ++
    "- Direct CPU: " ++ formatFix1 h.flat_pct ++ "%\n" ++
    "- Total CPU (with callees): " ++ formatFix1 h.cum_pct ++ "%\n\n" ++
    "**Issues Identified:**\n" ++ dashLines h.issues ++ "\n")

/-- The numbered hotspot entries starting at rank `i`. -/
def hotspotEntries : ℕ → List Hotspot → Option String
  | _, [] => some ""
  | i, h :: t => do
    let e ← hotspotEntry i h
    let r ← hotspotEntries (i + 1) t
    pure (e ++ r)

/-- The hotspot-list body: the first 10 findings, ranked from 1
(`enumerate(self.hotspots[:10], 1)`), or the no-hotspots text. -/
def hotspotSection (hs : List Hotspot) : Option String :=
  match hs with
  | [] => some "No hotspots detected.\n\n"
  | _ => hotspotEntries 1 (hs.take 10)

/-- One numbered recommendation entry of the report. -/
def recEntry (i : ℕ) (r : Recommendation) : Option String :=
  (priorityEmoji r.priority).map (fun e =>
    "### " ++ toString i ++ ". " ++ e ++ " " ++ r.category ++ "\n\n" ++
    "**Priority:** " ++ r.priority ++ "\n" ++
    "**Issue:** " ++ r.issue ++ "\n\n" ++
    "**Suggested Actions:**\n" ++ dashLines r.suggestions ++ "\n")

/-- The numbered recommendation entries starting at rank `i`. -/
def recEntries : ℕ → List Recommendation → Option String
  | _, [] => some ""
  | i, r :: t => do
    let e ← recEntry i r
    let rest ← recEntries (i + 1) t
    pure (e ++ rest)

/-- The recommendations body: every entry ranked from 1, or the healthy
text. -/
def recSection (rs : List Recommendation) : Option String :=
  match rs with
  | [] => some "No specific recommendations. Profile looks healthy!\n\n"
  | _ => recEntries 1 rs

/-- Replace non-overlapping occurrences of `pat` left to right (fuelled so
that it is structural; the fuel `cs.length` always suffices).  With an empty
pattern Python would intersperse the replacement; the analyzer only calls
this with the pattern `".pb.gz"`. -/
def replaceFuel (pat rep : List Char) : ℕ → List Char → List Char
  | 0, cs => cs
  | _ + 1, [] => []
  | n + 1, c :: t =>
    if pat ≠ [] && pat.isPrefixOf (c :: t) then
      rep ++ replaceFuel pat rep n (t.drop (pat.length - 1))
    else c :: replaceFuel pat rep n t

/-- Python `s.replace(pat, rep)` (all occurrences). -/
def pyReplace (s pat rep : String) : String :=
  String.mk (replaceFuel pat.data rep.data s.data.length s.data)

/-- The fixed Next Steps section (static text except for the profile path). -/
def nextSteps (path : String) : String :=
  "## 🚀 Next Steps\n\n" ++
  "1. **Review the flamegraph visually:**\n" ++
  "   ```bash\n" ++
  "   firefox " ++ pyReplace path ".pb.gz" ".svg" ++ "\n" ++
  "   ```\n\n" ++
  "2. **Interactive analysis:**\n" ++
  "   ```bash\n" ++
  "   go tool pprof " ++ path ++ "\n" ++
  "   # Commands: top, list <function>, web\n" ++
  "   ```\n\n" ++
  "3. **Generate additional profiles:**\n" ++
  "   ```bash\n" ++
  "   make profile-heap      # Memory allocation profile\n" ++
  "   make profile-goroutine # Goroutine usage\n" ++
  "   make profile-block     # Blocking operations\n" ++
  "   make profile-mutex     # Lock contention\n" ++
  "   ```\n\n"

/-- The report text up to and including the `**Generated:** ` label; the
timestamp from `datetime.now().strftime('%Y-%m-%d %H:%M:%S')` follows it. -/
def reportMetaPre (name : String) : String :=
  "# Flamegraph Analysis Report\n\n" ++
  "**Profile:** `" ++ name ++ "`\n" ++
  "**Generated:** "

/-- The report text after the timestamp: profile path, separator, executive
summary, hotspot section, recommendation section and static tail, assembled
from the already-rendered section bodies `hsec` and `rsec`. -/
def reportAfterTime (path : String) (hs : List Hotspot) (hsec rsec : String) : String :=
  "\n" ++
  "**Profile Path:** `" ++ path ++ "`\n\n" ++
  "---\n\n" ++
  ("## 🎯 Executive Summary\n\n" ++ summarySection hs ++
   ("## 🔥 Top Performance Hotspots\n\n" ++
    (hsec ++
     ("## 💡 Optimization Recommendations\n\n" ++
      (rsec ++
       (nextSteps path ++ ("---\n\n" ++ "*Generated by AI Flamegraph Analyzer*\n")))))))

/-- `FlamegraphAnalyzer.generate_report`, modelled as the text it writes.
The profile name, profile path and the `datetime.now()` timestamp — impure
reads in the source — are explicit parameters; the priority-emoji dictionary
lookups make the result an `Option`. -/
def generate_report_text (name path timestamp : String)
    (hs : List Hotspot) (rs : List Recommendation) : Option String := do
  let hsec ← hotspotSection hs
  let rsec ← recSection rs
  pure (reportMetaPre name ++ timestamp ++ reportAfterTime path hs hsec rsec)

/-- One line pair of the quick summary printed by `analyze` (rank, emoji,
possibly truncated function name, percentage, and `issues[0]`); the emoji
lookup and first-issue access are the fallible operations. -/
def quickSummaryLine (i : ℕ) (h : Hotspot) : Option String := do
  let e ← priorityEmoji h.priority
  let first ← h.issues.head?
  let funcShort :=
    if h.function.data.length > 60 then String.mk (h.function.data.take 60) ++ "..."
    else h.function
  pure ("  " ++ toString i ++ ". " ++ e ++ " " ++ funcShort ++ "\n     " ++
    formatFix1 h.flat_pct ++ "% CPU - " ++ first)

section RatReducible

/- Batteries marks the rational operations `@[irreducible]`; the embedded
pipeline evaluates them on concrete inputs, so within this theorem section
they are restored to their definitional behaviour. -/
attribute [local semireducible] Rat.add Rat.mul Rat.inv Rat.sub

/-! Helper lemmas about the classifier's priority transitions. -/

/-- A priority is one of the three literal strings the classifier uses. -/
def PrioOK (p : String) : Prop := p = "LOW" ∨ p = "MEDIUM" ∨ p = "HIGH"

theorem prioRank_le_two (p : String) : prioRank p ≤ 2 := by
  unfold prioRank; split_ifs <;> omega

theorem rank_nonhigh_le_one (p : String) (h : p ≠ "HIGH") : prioRank p ≤ 1 := by
  unfold prioRank; rw [if_neg h]; split_ifs <;> omega

theorem rule1_fst (f : FunctionStat) (s : String × List String) :
    (rule1 f s).1 = "HIGH" ∨ (rule1 f s).1 = "MEDIUM" ∨ (rule1 f s).1 = s.1 := by
  unfold rule1; split_ifs <;> simp

theorem rule2_fst (f : FunctionStat) (s : String × List String) :
    (rule2 f s).1 = s.1 ∨ (rule2 f s).1 = "MEDIUM" := by
  unfold rule2; split_ifs <;> simp

theorem rule3_fst (f : FunctionStat) (s : String × List String) :
    (rule3 f s).1 = s.1 ∨ (rule3 f s).1 = "HIGH" := by
  unfold rule3; split_ifs <;> simp

theorem rule4_fst (f : FunctionStat) (s : String × List String) :
    (rule4 f s).1 = s.1 ∨ (rule4 f s).1 = "HIGH" := by
  unfold rule4; split_ifs <;> simp

theorem rule5_fst (f : FunctionStat) (s : String × List String) :
    (rule5 f s).1 = s.1 ∨ (rule5 f s).1 = "MEDIUM" := by
  unfold rule5; split_ifs <;> simp

theorem rule6_fst (f : FunctionStat) (s : String × List String) :
    (rule6 f s).1 = s.1 ∨ (rule6 f s).1 = "HIGH" := by
  unfold rule6; split_ifs <;> simp

theorem rule7_fst (f : FunctionStat) (s : String × List String) :
    (rule7 f s).1 = s.1 ∨ (rule7 f s).1 = "MEDIUM" := by
  unfold rule7; split_ifs <;> simp

theorem rule8_fst (f : FunctionStat) (s : String × List String) :
    (rule8 f s).1 = s.1 := by
  unfold rule8; split_ifs <;> simp

theorem rule9_fst (f : FunctionStat) (s : String × List String) :
    (rule9 f s).1 = s.1 := by
  unfold rule9; split_ifs <;> simp

theorem rule2_rank_mono (f : FunctionStat) (s : String × List String) :
    prioRank s.1 ≤ prioRank (rule2 f s).1 := by
  unfold rule2
  by_cases h1 : f.cum_pct > 20
  · by_cases h2 : s.1 = "HIGH"
    · simp [h1, h2]
    · simp only [if_pos h1, if_neg h2]
      exact le_trans (rank_nonhigh_le_one s.1 h2) (by decide)
  · simp [h1]

theorem rank_mono_of_high_or_id (s r : String × List String)
    (h : r.1 = s.1 ∨ r.1 = "HIGH") : prioRank s.1 ≤ prioRank r.1 := by
  rcases h with h | h
  · rw [h]
  · rw [h]; exact le_trans (prioRank_le_two s.1) (by decide)

theorem rule3_rank_mono (f : FunctionStat) (s : String × List String) :
    prioRank s.1 ≤ prioRank (rule3 f s).1 :=
  rank_mono_of_high_or_id s _ (rule3_fst f s)

theorem rule4_rank_mono (f : FunctionStat) (s : String × List String) :
    prioRank s.1 ≤ prioRank (rule4 f s).1 :=
  rank_mono_of_high_or_id s _ (rule4_fst f s)

theorem rule6_rank_mono (f : FunctionStat) (s : String × List String) :
    prioRank s.1 ≤ prioRank (rule6 f s).1 :=
  rank_mono_of_high_or_id s _ (rule6_fst f s)

/-! Claim C1. -/

/-- The concrete record refuting the escalation-only law: a function whose
name matches the serialization keywords while `flatPct` exceeds 10. -/
def fJson : FunctionStat := ⟨"150ms", 15, "0ms", 0, "encoding/json.Marshal"⟩

/-- C1 (counterexample): the priority trace of `fJson` is NOT monotonically
non-decreasing over the fixed rule order — rule 1 sets HIGH
(`flatPct = 15 > 10`) and rule 5 then lowers it to MEDIUM
(name contains "json"/"marshal" and `flatPct > 5`), so the escalation-only
law of the claim fails on this record. -/
theorem hotspot_priority_escalation_counterexample :
    ¬ List.Chain' (fun a b => prioRank a ≤ prioRank b) (classifyTrace fJson) := by
  intro h
  have ht : classifyTrace fJson =
      ["LOW", "HIGH", "HIGH", "HIGH", "HIGH", "MEDIUM", "MEDIUM", "MEDIUM", "MEDIUM", "MEDIUM"] :=
    by decide
  rw [ht] at h
  simp [List.chain'_cons, prioRank] at h

/-- C1 (amended): the priority is non-decreasing at every rule application
except that rules 5 (json/marshal/unmarshal, `flatPct > 5`) and 7 (reflect,
`flatPct > 3`) assign exactly MEDIUM when they fire — which can lower an
already-HIGH priority.  Every step of the trace either keeps the rank from
falling or lands on "MEDIUM"; rules 5 and 7 either leave the priority alone
or set it to exactly "MEDIUM"; rules 2, 3, 4 and 6 never lower the rank; and
rules 8 and 9 never change the priority. -/
theorem hotspot_priority_escalation_amended (f : FunctionStat) :
    List.Chain' (fun a b => prioRank a ≤ prioRank b ∨ b = "MEDIUM") (classifyTrace f) ∧
    (∀ s, (rule5 f s).1 = s.1 ∨ (rule5 f s).1 = "MEDIUM") ∧
    (∀ s, (rule7 f s).1 = s.1 ∨ (rule7 f s).1 = "MEDIUM") ∧
    (∀ s, prioRank s.1 ≤ prioRank (rule2 f s).1) ∧
    (∀ s, prioRank s.1 ≤ prioRank (rule3 f s).1) ∧
    (∀ s, prioRank s.1 ≤ prioRank (rule4 f s).1) ∧
    (∀ s, prioRank s.1 ≤ prioRank (rule6 f s).1) ∧
    (∀ s, (rule8 f s).1 = s.1) ∧ (∀ s, (rule9 f s).1 = s.1) := by
  refine ⟨?_, rule5_fst f, rule7_fst f, rule2_rank_mono f, rule3_rank_mono f,
    rule4_rank_mono f, rule6_rank_mono f, rule8_fst f, rule9_fst f⟩
  simp only [classifyTrace, stateTrace, List.map_cons, List.map_nil, List.chain'_cons,
    List.chain'_singleton, and_true]
  refine ⟨?_, ?_, ?_, ?_, ?_, ?_, ?_, ?_, ?_⟩
  · exact Or.inl (Nat.zero_le _)
  · exact Or.inl (rule2_rank_mono f _)
  · exact Or.inl (rule3_rank_mono f _)
  · exact Or.inl (rule4_rank_mono f _)
  · rcases rule5_fst f (rule4 f (rule3 f (rule2 f (rule1 f ("LOW", []))))) with h | h
    · exact Or.inl (le_of_eq (congrArg prioRank h.symm))
    · exact Or.inr h
  · exact Or.inl (rule6_rank_mono f _)
  · rcases rule7_fst f (rule6 f (rule5 f (rule4 f (rule3 f (rule2 f (rule1 f ("LOW", []))))))) with
      h | h
    · exact Or.inl (le_of_eq (congrArg prioRank h.symm))
    · exact Or.inr h
  · exact Or.inl (le_of_eq (congrArg prioRank (rule8_fst f _).symm))
  · exact Or.inl (le_of_eq (congrArg prioRank (rule9_fst f _).symm))

/-! Claim C3: the record count. -/

/-- A candidate line qualifies as a data line: at least 6 whitespace tokens
and both percentage tokens (indices 1 and 4, trailing percent signs
stripped) parse as numbers. -/
def dataLineOK (l : String) : Bool :=
  decide ((pyTokens l).length ≥ 6) &&
  (pyFloat? (rstripPct ((pyTokens l).getD 1 ""))).isSome &&
  (pyFloat? (rstripPct ((pyTokens l).getD 4 ""))).isSome

/-- The count exactly as claim C3 states it (following the claim's words,
for comparison with the parser): the number of qualifying lines strictly
after the first header line. -/
def specRecordCount (s : String) : ℕ :=
  match (pyLines s).findIdx? headerLike with
  | none => 0
  | some i => (((pyLines s).drop (i + 1)).filter dataLineOK).length

/-- A line the parser actually accepts: a qualifying data line that does not
itself contain both "flat" and "cum" (such a line is re-treated as a header
line and skipped). -/
def okDataLine (l : String) : Bool := !headerLike l && dataLineOK l

/-- The amended count: after the first header line, the qualifying
non-header-like lines. -/
def countAfterHeader : List String → ℕ
  | [] => 0
  | l :: ls => if headerLike l then (ls.filter okDataLine).length else countAfterHeader ls

/-- The amended count, on raw input text. -/
def amendedRecordCount (s : String) : ℕ := countAfterHeader (pyLines s)

/-- An input whose single post-header candidate line qualifies under the
claim's counting predicate but contains both "flat" and "cum" in its
function name. -/
def cxHeaderData : String := "flat cum\n1ms 1.0% 1.0% 2ms 2.0% flatcum.fn"

/-- All-whitespace text yields no tokens. -/
theorem tokensAux_all_space (cs : List Char) (h : cs.all pySpace = true) :
    tokensAux [] cs = [] := by
  induction cs with
  | nil => rfl
  | cons c t ih =>
    rw [List.all_cons, Bool.and_eq_true] at h
    simp [tokensAux, h.1, ih h.2]

/-- A blank line has no tokens. -/
theorem pyTokens_blank (l : String) (h : isBlank l = true) : pyTokens l = [] := by
  unfold pyTokens
  rw [tokensAux_all_space l.data h, List.map_nil]

/-- C3 (counterexample): on `cxHeaderData` the claim's count is 1 — the data
line follows the header, has 6 tokens and two parsing percentages — but the
parser emits 0 records, because the line contains both "flat" and "cum" and
is therefore skipped as a header line.  So the claimed equality fails. -/
theorem parse_count_counterexample :
    specRecordCount cxHeaderData = 1 ∧ (parse_top_output cxHeaderData).length = 0 := by
  refine ⟨by decide, by decide⟩

/-- Once the data section has started, each further line contributes exactly
one record when it is a non-header-like qualifying data line, and nothing
otherwise. -/
theorem started_foldl_len (ls : List String) :
    ∀ acc : List FunctionStat,
      ((ls.foldl parseLineStep (true, acc)).2).length =
        acc.length + (ls.filter okDataLine).length := by
  induction ls with
  | nil => intro acc; simp
  | cons l ls ih =>
    intro acc
    by_cases hh : headerLike l
    · have hstep : parseLineStep (true, acc) l = (true, acc) := by
        unfold parseLineStep; rw [if_pos hh]
      have hfil : okDataLine l = false := by simp [okDataLine, hh]
      simp [List.foldl_cons, hstep, List.filter_cons, hfil, ih acc]
    · by_cases hb : isBlank l
      · have hstep : parseLineStep (true, acc) l = (true, acc) := by
          unfold parseLineStep; rw [if_neg hh]; simp [hb]
        have hfil : okDataLine l = false := by
          simp [okDataLine, dataLineOK, pyTokens_blank l hb]
        simp [List.foldl_cons, hstep, List.filter_cons, hfil, ih acc]
      · by_cases hlen : (pyTokens l).length ≥ 6
        · cases e1 : pyFloat? (rstripPct ((pyTokens l).getD 1 "")) with
          | none =>
            have e1n := e1
            simp only [List.getD, List.get?_eq_getElem?] at e1n
            have hstep : parseLineStep (true, acc) l = (true, acc) := by
              unfold parseLineStep
              rw [if_neg hh]
              simp only [hb, Bool.not_true, Bool.false_or, if_neg Bool.false_ne_true]
              rw [if_pos hlen, e1]
            have hfil : okDataLine l = false := by
              simp [okDataLine, dataLineOK, e1n]
            simp [List.foldl_cons, hstep, List.filter_cons, hfil, ih acc]
          | some q1 =>
            have e1n := e1
            simp only [List.getD, List.get?_eq_getElem?] at e1n
            cases e4 : pyFloat? (rstripPct ((pyTokens l).getD 4 "")) with
            | none =>
              have e4n := e4
              simp only [List.getD, List.get?_eq_getElem?] at e4n
              have hstep : parseLineStep (true, acc) l = (true, acc) := by
                unfold parseLineStep
                rw [if_neg hh]
                simp only [hb, Bool.not_true, Bool.false_or, if_neg Bool.false_ne_true]
                rw [if_pos hlen, e1, e4]
              have hfil : okDataLine l = false := by
                simp [okDataLine, dataLineOK, e4n]
              simp [List.foldl_cons, hstep, List.filter_cons, hfil, ih acc]
            | some q4 =>
              have e4n := e4
              simp only [List.getD, List.get?_eq_getElem?] at e4n
              have hstep : parseLineStep (true, acc) l =
                  (true, acc ++ [⟨(pyTokens l).getD 0 "", q1, (pyTokens l).getD 3 "", q4,
                    String.intercalate " " ((pyTokens l).drop 5)⟩]) := by
                unfold parseLineStep
                rw [if_neg hh]
                simp only [hb, Bool.not_true, Bool.false_or, if_neg Bool.false_ne_true]
                rw [if_pos hlen, e1, e4]
              have hfil : okDataLine l = true := by
                simp [okDataLine, dataLineOK, e1n, e4n, hh, hlen]
              rw [List.foldl_cons, hstep, ih _, List.filter_cons, hfil]
              simp
              omega
        · have hstep : parseLineStep (true, acc) l = (true, acc) := by
            unfold parseLineStep
            rw [if_neg hh]
            simp only [hb, Bool.not_true, Bool.false_or, if_neg Bool.false_ne_true]
            rw [if_neg hlen]
          have hfil : okDataLine l = false := by
            simp only [okDataLine, dataLineOK, Bool.and_eq_false_imp, Bool.and_eq_true,
              decide_eq_true_eq, Bool.not_eq_eq_eq_not, Bool.not_true]
            omega
          simp [List.foldl_cons, hstep, List.filter_cons, hfil, ih acc]

/-- Before the header, lines produce nothing; the first header line starts
the data section. -/
theorem parseLines_len (ls : List String) :
    (parseLines ls).length = countAfterHeader ls := by
  unfold parseLines
  induction ls with
  | nil => simp [countAfterHeader]
  | cons l ls ih =>
    by_cases hh : headerLike l
    · have hstep : parseLineStep (false, []) l = (true, []) := by
        unfold parseLineStep; rw [if_pos hh]
      rw [List.foldl_cons, hstep]
      simp only [countAfterHeader, if_pos hh]
      simpa using started_foldl_len ls []
    · have hstep : parseLineStep (false, []) l = (false, []) := by
        unfold parseLineStep; rw [if_neg hh]; simp
      rw [List.foldl_cons, hstep]
      simp only [countAfterHeader, if_neg hh]
      exact ih

/-- C3 (amended): for every input text, the number of emitted records equals
the number of lines strictly after the first header line that qualify as
data lines AND do not themselves contain both "flat" and "cum" (those are
re-treated as header lines and skipped). -/
theorem parse_count_amended (s : String) :
    (parse_top_output s).length = amendedRecordCount s :=
  parseLines_len (pyLines s)

/-! Claim C4: recommendation categories, order and thresholds. -/

/-- A hotspot carrying only a database issue. -/
def hDb : Hotspot := ⟨"db.Query", 6, 0, "HIGH", ["Database query overhead"]⟩

/-- C4 (counterexample): the synthesizer's fourth category is named
"Database", not "Data Access" — the output for a sql-tagged finding has a
category outside the claim's list of names. -/
theorem recommendation_categories_counterexample :
    ¬ (∀ r ∈ generate_recommendations [hDb],
      r.category = "Memory Management" ∨ r.category = "Concurrency" ∨
      r.category = "Serialization" ∨ r.category = "Data Access" ∨
      r.category = "Code Generation") := by
  decide

/-- Any member of the recommendation list is one of the five fixed entries. -/
theorem mem_generate_recommendations (hs : List Hotspot) (r : Recommendation)
    (hr : r ∈ generate_recommendations hs) :
    r = recGc hs ∨ r = recLock hs ∨ r = recJson hs ∨ r = recSql hs ∨ r = recReflect hs := by
  unfold generate_recommendations at hr
  simp only [List.mem_append] at hr
  rcases hr with ((((h | h) | h) | h) | h) <;>
    [skip; skip; skip; skip; skip] <;>
    split_ifs at h <;> simp_all

/-- C4 (amended): the synthesizer emits one entry per non-empty category, in
the fixed order Memory Management, Concurrency, Serialization, Database,
Code Generation (the source names the fourth category "Database", not "Data
Access"), omitting empty categories, with priorities from the group sums:
Memory Management HIGH above 10 else MEDIUM, Concurrency HIGH above 5 else
MEDIUM, Serialization MEDIUM above 5 else LOW, Database HIGH above 10 else
MEDIUM, Code Generation always MEDIUM. -/
theorem recommendations_amended (hs : List Hotspot) :
    (generate_recommendations hs).map Recommendation.category =
      ((if groupFor "gc" hs = [] then [] else ["Memory Management"]) ++
       (if groupFor "lock" hs = [] then [] else ["Concurrency"]) ++
       (if groupFor "json" hs = [] then [] else ["Serialization"]) ++
       (if groupFor "sql" hs = [] then [] else ["Database"]) ++
       (if groupFor "reflect" hs = [] then [] else ["Code Generation"])) ∧
    (∀ r ∈ generate_recommendations hs,
      (r.category = "Memory Management" →
        r.priority = (if sumFlat (groupFor "gc" hs) > 10 then "HIGH" else "MEDIUM")) ∧
      (r.category = "Concurrency" →
        r.priority = (if sumFlat (groupFor "lock" hs) > 5 then "HIGH" else "MEDIUM")) ∧
      (r.category = "Serialization" →
        r.priority = (if sumFlat (groupFor "json" hs) > 5 then "MEDIUM" else "LOW")) ∧
      (r.category = "Database" →
        r.priority = (if sumFlat (groupFor "sql" hs) > 10 then "HIGH" else "MEDIUM")) ∧
      (r.category = "Code Generation" → r.priority = "MEDIUM")) := by
  constructor
  · unfold generate_recommendations
    split_ifs <;> simp [recGc, recLock, recJson, recSql, recReflect]
  · intro r hr
    rcases mem_generate_recommendations hs r hr with h | h | h | h | h <;> subst h <;>
      refine ⟨fun hc => ?_, fun hc => ?_, fun hc => ?_, fun hc => ?_, fun hc => ?_⟩ <;>
      first
        | rfl
        | exact absurd hc (by simp [recGc, recLock, recJson, recSql, recReflect])

/-- A hotspot carrying a gc issue with a large flat percentage. -/
def hGcW : Hotspot := ⟨"runtime.gc", 15, 25, "HIGH", ["Garbage collection overhead"]⟩

/-- Witness for the amended C4 theorem at a concrete input: the Memory
Management entry of `[hGcW]` gets priority HIGH (its group sum 15 exceeds
10). -/
theorem recommendations_amended_witness : (recGc [hGcW]).priority = "HIGH" :=
  ((recommendations_amended [hGcW]).2 (recGc [hGcW]) (by decide)).1 (by decide)

/-! Claim C5: scenario B, end to end. -/

/-- The scenario-B input: a valid header followed by the single data line. -/
def scenB : String :=
  "flat  flat%   sum%        cum   cum%\n50ms 15.0% 15.0% 80ms 25.0% runtime.gcBgMarkWorker"

/-- C5: parsing `scenB` yields exactly one record with `flatPct = 15.0` and
`cumPct = 25.0`; the classifier yields one HIGH finding whose issues are, in
order, the direct-CPU issue (15.0%), the hot-call-path issue (25.0%) and the
garbage-collection issue; and the synthesizer emits the Memory Management
recommendation with priority HIGH (aggregate 15.0 > 10). -/
theorem scenarioB_pipeline :
    parse_top_output scenB = [⟨"50ms", 15, "80ms", 25, "runtime.gcBgMarkWorker"⟩] ∧
    identify_hotspots (parse_top_output scenB) =
      [⟨"runtime.gcBgMarkWorker", 15, 25, "HIGH",
        ["Consumes 15.0% CPU directly", "Call tree consumes 25.0% total CPU",
         "Garbage collection overhead"]⟩] ∧
    generate_recommendations (identify_hotspots (parse_top_output scenB)) =
      [⟨"Memory Management", "HIGH", "GC overhead: 15.0% CPU", gcSuggestions⟩] := by
  refine ⟨by decide, by decide, by decide⟩

/-! Claim C6: malformed lines are discarded without affecting the rest. -/

/-- A line the parser's data section discards: fewer than 6 tokens, or a
failing percentage parse at token 1 or token 4. -/
def malformedLine (l : String) : Prop :=
  (pyTokens l).length < 6 ∨
  pyFloat? (rstripPct ((pyTokens l).getD 1 "")) = none ∨
  pyFloat? (rstripPct ((pyTokens l).getD 4 "")) = none

/-- The step function never turns the started flag off. -/
theorem step_fst_true (st : Bool × List FunctionStat) (l : String) (h : st.1 = true) :
    (parseLineStep st l).1 = true := by
  unfold parseLineStep
  split_ifs <;> first | rfl | exact h | (split <;> exact h)

/-- Once started, the fold stays started. -/
theorem foldl_fst_true (ls : List String) :
    ∀ st : Bool × List FunctionStat, st.1 = true → (ls.foldl parseLineStep st).1 = true := by
  induction ls with
  | nil => intro st h; simpa using h
  | cons l ls ih => intro st h; exact ih _ (step_fst_true st l h)

/-- A prefix containing a header line leaves the fold in the started state. -/
theorem header_foldl_fst (A : List String) :
    ∀ st : Bool × List FunctionStat, (∃ a ∈ A, headerLike a = true) →
      (A.foldl parseLineStep st).1 = true := by
  induction A with
  | nil => intro st h; simp at h
  | cons x A ih =>
    intro st hex
    rcases hex with ⟨a, ha, hha⟩
    rcases List.mem_cons.mp ha with rfl | haA
    · have hx : (parseLineStep st a).1 = true := by
        unfold parseLineStep; rw [if_pos hha]
      exact foldl_fst_true A _ hx
    · exact ih _ ⟨a, haA, hha⟩

/-- In the started state a malformed line is a no-op for the parser state. -/
theorem step_noop_of_malformed (st : Bool × List FunctionStat) (l : String)
    (h1 : st.1 = true) (hm : malformedLine l) : parseLineStep st l = st := by
  obtain ⟨b, acc⟩ := st
  simp only at h1
  subst h1
  unfold parseLineStep
  by_cases hh : headerLike l
  · rw [if_pos hh]
  · rw [if_neg hh]
    by_cases hb : isBlank l
    · simp [hb]
    · simp only [hb, Bool.not_true, Bool.false_or, if_neg Bool.false_ne_true]
      by_cases hlen : (pyTokens l).length ≥ 6
      · rw [if_pos hlen]
        rcases hm with hm | hm | hm
        · omega
        · rw [hm]
        · rw [hm]
          cases pyFloat? (rstripPct ((pyTokens l).getD 1 "")) <;> rfl
      · rw [if_neg hlen]

/-- C6: parsing never fails — every line is consumed totally — and in the
data section (after a header line) a malformed line (fewer than 6 tokens, or
a percentage token that does not parse) is discarded as a whole: removing it
from the input leaves the parse of every other line unchanged. -/
theorem malformed_line_discarded (A B : List String) (l : String)
    (hA : ∃ a ∈ A, headerLike a = true) (hm : malformedLine l) :
    parseLines (A ++ l :: B) = parseLines (A ++ B) := by
  unfold parseLines
  rw [List.foldl_append, List.foldl_append, List.foldl_cons,
    step_noop_of_malformed _ l (header_foldl_fst A _ hA) hm]

/-- Witness for C6: dropping a 3-token line between the header and a valid
data line leaves the parse unchanged. -/
theorem malformed_line_discarded_witness :
    parseLines (["flat cum"] ++ "one two three" :: ["1ms 1.0% 1.0% 2ms 2.0% fn"]) =
      parseLines (["flat cum"] ++ ["1ms 1.0% 1.0% 2ms 2.0% fn"]) :=
  malformed_line_discarded ["flat cum"] ["1ms 1.0% 1.0% 2ms 2.0% fn"] "one two three"
    ⟨"flat cum", by decide, by decide⟩ (Or.inl (by decide))

/-! Substring-containment helpers. -/

theorem isPrefixOf_append (p : List Char) :
    ∀ m r : List Char, p.isPrefixOf m = true → p.isPrefixOf (m ++ r) = true := by
  induction p with
  | nil => intro m r _; simp [List.isPrefixOf]
  | cons a as ih =>
    intro m r h
    cases m with
    | nil => simp [List.isPrefixOf] at h
    | cons b bs =>
      rw [List.cons_append]
      rw [show ((a :: as).isPrefixOf (b :: bs)) = (a == b && as.isPrefixOf bs) from rfl] at h
      rw [show ((a :: as).isPrefixOf (b :: (bs ++ r))) = (a == b && as.isPrefixOf (bs ++ r)) from
        rfl]
      rw [Bool.and_eq_true] at h ⊢
      exact ⟨h.1, ih bs r h.2⟩

theorem infixOfB_nil (l : List Char) : infixOfB [] l = true := by
  induction l with
  | nil => rfl
  | cons c t ih =>
    show (List.isPrefixOf [] (c :: t) || infixOfB [] t) = true
    rw [ih, Bool.or_true]

theorem infixOfB_append_right (s t pat : List Char) (h : infixOfB pat t = true) :
    infixOfB pat (s ++ t) = true := by
  induction s with
  | nil => simpa using h
  | cons c s ih =>
    rw [List.cons_append]
    show (pat.isPrefixOf (c :: (s ++ t)) || infixOfB pat (s ++ t)) = true
    rw [ih, Bool.or_true]

theorem infixOfB_append_left (s t pat : List Char) (h : infixOfB pat s = true) :
    infixOfB pat (s ++ t) = true := by
  induction s with
  | nil =>
    have hp : pat = [] := by simpa [infixOfB, List.isEmpty_iff] using h
    subst hp
    simpa using infixOfB_nil t
  | cons c s ih =>
    rw [List.cons_append]
    show (pat.isPrefixOf (c :: (s ++ t)) || infixOfB pat (s ++ t)) = true
    have h' : (pat.isPrefixOf (c :: s) || infixOfB pat s) = true := h
    rw [Bool.or_eq_true] at h' ⊢
    rcases h' with h' | h'
    · left
      have hx := isPrefixOf_append pat (c :: s) t h'
      rwa [List.cons_append] at hx
    · exact Or.inr (ih h')

theorem containsSubstr_append_right (s t pat : String)
    (h : containsSubstr t pat = true) : containsSubstr (s ++ t) pat = true := by
  unfold containsSubstr at h ⊢
  rw [String.data_append]
  exact infixOfB_append_right s.data t.data pat.data h

theorem containsSubstr_append_left (s t pat : String)
    (h : containsSubstr s pat = true) : containsSubstr (s ++ t) pat = true := by
  unfold containsSubstr at h ⊢
  rw [String.data_append]
  exact infixOfB_append_left s.data t.data pat.data h

/-! Claim C7: empty input and missing headers. -/

/-- Without a header line the fold never leaves the initial state. -/
theorem no_header_foldl (ls : List String) (h : ∀ l ∈ ls, headerLike l = false) :
    ls.foldl parseLineStep (false, []) = (false, []) := by
  induction ls with
  | nil => rfl
  | cons l t ih =>
    rw [List.foldl_cons]
    have hstep : parseLineStep (false, []) l = (false, []) := by
      unfold parseLineStep
      rw [if_neg (by simp [h l (List.mem_cons_self l t)])]
      simp
    rw [hstep]
    exact ih (fun x hx => h x (List.mem_cons_of_mem l hx))

/-- C7: the empty input yields no records; more generally any input with no
header line yields no records instead of an error; classification and
synthesis of the empty sequences are empty; and the report rendered for the
empty sequences succeeds and contains the no-hotspots statements in the
summary and hotspot sections and the healthy statement in the
recommendations section. -/
theorem empty_input_pipeline :
    parse_top_output "" = [] ∧
    (∀ s, (∀ l ∈ pyLines s, headerLike l = false) → parse_top_output s = []) ∧
    identify_hotspots [] = [] ∧
    generate_recommendations [] = [] ∧
    (∀ n p t, ∃ r, generate_report_text n p t [] [] = some r ∧
      containsSubstr r "No significant hotspots detected. Performance appears optimal." = true ∧
      containsSubstr r "No hotspots detected." = true ∧
      containsSubstr r "No specific recommendations. Profile looks healthy!" = true) := by
  refine ⟨by decide, ?_, rfl, rfl, ?_⟩
  · intro s h
    unfold parse_top_output parseLines
    rw [no_header_foldl (pyLines s) h]
  · intro n p t
    refine ⟨reportMetaPre n ++ t ++
      reportAfterTime p [] "No hotspots detected.\n\n"
        "No specific recommendations. Profile looks healthy!\n\n", rfl, ?_, ?_, ?_⟩
    · apply containsSubstr_append_right
      unfold reportAfterTime
      apply containsSubstr_append_right
      apply containsSubstr_append_left
      decide
    · apply containsSubstr_append_right
      unfold reportAfterTime
      apply containsSubstr_append_right
      apply containsSubstr_append_right
      apply containsSubstr_append_right
      apply containsSubstr_append_left
      decide
    · apply containsSubstr_append_right
      unfold reportAfterTime
      apply containsSubstr_append_right
      apply containsSubstr_append_right
      apply containsSubstr_append_right
      apply containsSubstr_append_right
      apply containsSubstr_append_right
      apply containsSubstr_append_left
      decide

/-- Witness for C7 at a concrete header-free input. -/
theorem empty_input_pipeline_witness : parse_top_output "hello\nworld" = [] :=
  empty_input_pipeline.2.1 "hello\nworld" (by decide)

/-! Claim C8: source order and the first-10 truncation. -/

/-- The classification loop, with any accumulator, appends exactly the
filter-mapped findings. -/
theorem identify_foldl (funcs : List FunctionStat) :
    ∀ acc : List Hotspot,
      funcs.foldl (fun acc f => match hotspotOf f with | some h => acc ++ [h] | none => acc) acc =
        acc ++ funcs.filterMap hotspotOf := by
  induction funcs with
  | nil => intro acc; simp
  | cons f fs ih =>
    intro acc
    rw [List.foldl_cons, List.filterMap_cons]
    cases hf : hotspotOf f with
    | none => simp only [hf]; exact ih acc
    | some h =>
      simp only [hf]
      rw [ih (acc ++ [h]), List.append_assoc, List.singleton_append]

/-- `identify_hotspots` is the order-preserving filter-map of the per-record
classifier. -/
theorem identify_eq_filterMap (funcs : List FunctionStat) :
    identify_hotspots funcs = funcs.filterMap hotspotOf := by
  unfold identify_hotspots
  simpa using identify_foldl funcs []

/-- A finding carries the name of its source record. -/
theorem hotspotOf_function (f : FunctionStat) (h : Hotspot)
    (hh : hotspotOf f = some h) : h.function = f.name := by
  simp only [hotspotOf] at hh
  by_cases he : (classifyState f).2 = []
  · simp [he] at hh
  · rw [if_neg he] at hh
    cases Option.some.inj hh
    rfl

/-- The findings' function names form a sublist of the records' names: same
relative order, nothing re-sorted. -/
theorem identify_names_sublist (funcs : List FunctionStat) :
    ((identify_hotspots funcs).map Hotspot.function).Sublist
      (funcs.map FunctionStat.name) := by
  rw [identify_eq_filterMap]
  induction funcs with
  | nil => simp
  | cons f fs ih =>
    rw [List.filterMap_cons, List.map_cons]
    cases hf : hotspotOf f with
    | none => exact ih.cons _
    | some h =>
      rw [List.map_cons, hotspotOf_function f h hf]
      exact ih.cons₂ _

/-- C8: hotspot findings keep the relative order of their source records —
`identify_hotspots` is a filter-map, so the emitted function names form an
order-preserving sublist of the record names — and the rendered hotspot
section lists exactly the first 10 findings, in that order: it is rendered
from `take 10`, every finding is listed when there are at most 10, and
findings beyond the first 10 never influence the section. -/
theorem hotspot_order_and_truncation :
    (∀ funcs, identify_hotspots funcs = funcs.filterMap hotspotOf) ∧
    (∀ funcs, ((identify_hotspots funcs).map Hotspot.function).Sublist
      (funcs.map FunctionStat.name)) ∧
    (∀ hs : List Hotspot, hs ≠ [] → hotspotSection hs = hotspotEntries 1 (hs.take 10)) ∧
    (∀ hs : List Hotspot, hs ≠ [] → hs.length ≤ 10 →
      hotspotSection hs = hotspotEntries 1 hs) ∧
    (∀ hs extra : List Hotspot, hs.length = 10 →
      hotspotSection (hs ++ extra) = hotspotSection hs) := by
  refine ⟨identify_eq_filterMap, identify_names_sublist, ?_, ?_, ?_⟩
  · intro hs hne
    cases hs with
    | nil => exact absurd rfl hne
    | cons h t => rfl
  · intro hs hne hlen
    cases hs with
    | nil => exact absurd rfl hne
    | cons h t =>
      show hotspotEntries 1 ((h :: t).take 10) = hotspotEntries 1 (h :: t)
      rw [List.take_of_length_le hlen]
  · intro hs extra hlen
    cases hs with
    | nil => simp at hlen
    | cons h t =>
      show hotspotEntries 1 (((h :: t) ++ extra).take 10) = hotspotEntries 1 ((h :: t).take 10)
      rw [List.take_left' hlen, List.take_of_length_le (le_of_eq hlen)]

/-- Witness for C8: the section of a one-element list is its take-10
rendering, and an 11th-and-beyond element does not change the section. -/
theorem hotspot_order_and_truncation_witness :
    hotspotSection [hGcW] = hotspotEntries 1 ([hGcW].take 10) ∧
    hotspotSection (List.replicate 10 hGcW ++ [hDb]) =
      hotspotSection (List.replicate 10 hGcW) :=
  ⟨hotspot_order_and_truncation.2.2.1 [hGcW] (by simp),
   hotspot_order_and_truncation.2.2.2.2 (List.replicate 10 hGcW) [hDb] (by simp)⟩

/-! Claim C9: no range validation on percentage fields. -/

/-- C9: in the data section, any non-header-like line with at least 6 tokens
whose two percentage tokens parse yields a record carrying the parsed values
verbatim — there is no hypothesis on `q1`, `q4` here: negative values and
values above 100 pass through unchecked. -/
theorem parser_no_range_validation (st : Bool × List FunctionStat) (line : String)
    (t0 t1 t2 t3 t4 t5 : String) (rest : List String) (q1 q4 : ℚ)
    (hst : st.1 = true) (hh : headerLike line = false)
    (htok : pyTokens line = t0 :: t1 :: t2 :: t3 :: t4 :: t5 :: rest)
    (h1 : pyFloat? (rstripPct t1) = some q1)
    (h4 : pyFloat? (rstripPct t4) = some q4) :
    parseLineStep st line =
      (st.1, st.2 ++ [⟨t0, q1, t3, q4, String.intercalate " " (t5 :: rest)⟩]) := by
  have hb : isBlank line = false := by
    cases e : isBlank line
    · rfl
    · exact absurd (pyTokens_blank line e) (by rw [htok]; simp)
  unfold parseLineStep
  rw [if_neg (by simp [hh]), hst, hb]
  simp only [Bool.not_true, Bool.false_or, if_neg Bool.false_ne_true]
  rw [htok]
  rw [if_pos (by simp)]
  simp only [List.getD_cons_succ, List.getD_cons_zero]
  rw [h1, h4]
  rfl

/-- Witness for C9: a line with `flatPct = -5.0` and `cumPct = 150.0` is
parsed verbatim and its record still produces a finding downstream. -/
theorem parser_no_range_validation_witness :
    parseLineStep (true, []) "1ms -5.0% 0% 2ms 150.0% db.fn" =
      (true, [⟨"1ms", -5, "2ms", 150, "db.fn"⟩]) ∧
    identify_hotspots [⟨"1ms", -5, "2ms", 150, "db.fn"⟩] ≠ [] := by
  constructor
  · have h := parser_no_range_validation (true, []) "1ms -5.0% 0% 2ms 150.0% db.fn"
      "1ms" "-5.0%" "0%" "2ms" "150.0%" "db.fn" [] (-5) 150
      rfl (by decide) (by decide) (by decide) (by decide)
    simpa using h
  · decide

/-! Claim C10: classifier output is safe for the renderer. -/

theorem rule1_prioOK (f : FunctionStat) (s : String × List String)
    (h : PrioOK s.1) : PrioOK (rule1 f s).1 := by
  rcases rule1_fst f s with h1 | h1 | h1
  · exact Or.inr (Or.inr h1)
  · exact Or.inr (Or.inl h1)
  · rwa [h1]

theorem rule2_prioOK (f : FunctionStat) (s : String × List String)
    (h : PrioOK s.1) : PrioOK (rule2 f s).1 := by
  rcases rule2_fst f s with h1 | h1
  · rwa [h1]
  · exact Or.inr (Or.inl h1)

theorem rule3_prioOK (f : FunctionStat) (s : String × List String)
    (h : PrioOK s.1) : PrioOK (rule3 f s).1 := by
  rcases rule3_fst f s with h1 | h1
  · rwa [h1]
  · exact Or.inr (Or.inr h1)

theorem rule4_prioOK (f : FunctionStat) (s : String × List String)
    (h : PrioOK s.1) : PrioOK (rule4 f s).1 := by
  rcases rule4_fst f s with h1 | h1
  · rwa [h1]
  · exact Or.inr (Or.inr h1)

theorem rule5_prioOK (f : FunctionStat) (s : String × List String)
    (h : PrioOK s.1) : PrioOK (rule5 f s).1 := by
  rcases rule5_fst f s with h1 | h1
  · rwa [h1]
  · exact Or.inr (Or.inl h1)

theorem rule6_prioOK (f : FunctionStat) (s : String × List String)
    (h : PrioOK s.1) : PrioOK (rule6 f s).1 := by
  rcases rule6_fst f s with h1 | h1
  · rwa [h1]
  · exact Or.inr (Or.inr h1)

theorem rule7_prioOK (f : FunctionStat) (s : String × List String)
    (h : PrioOK s.1) : PrioOK (rule7 f s).1 := by
  rcases rule7_fst f s with h1 | h1
  · rwa [h1]
  · exact Or.inr (Or.inl h1)

/-- The final priority of any record is LOW, MEDIUM or HIGH. -/
theorem classifyState_prioOK (f : FunctionStat) : PrioOK (classifyState f).1 := by
  unfold classifyState
  rw [rule9_fst, rule8_fst]
  exact rule7_prioOK f _ (rule6_prioOK f _ (rule5_prioOK f _ (rule4_prioOK f _
    (rule3_prioOK f _ (rule2_prioOK f _ (rule1_prioOK f _ (Or.inl rfl)))))))

/-- C10: every finding the classifier emits has priority exactly "LOW",
"MEDIUM" or "HIGH" and a non-empty issue list, so the renderer's
priority-emoji dictionary lookups, the report's per-hotspot entry, and the
quick summary's first-issue access are total on classifier output. -/
theorem classifier_output_safe (funcs : List FunctionStat) (h : Hotspot)
    (hmem : h ∈ identify_hotspots funcs) :
    (h.priority = "LOW" ∨ h.priority = "MEDIUM" ∨ h.priority = "HIGH") ∧
    h.issues ≠ [] ∧
    (priorityEmoji h.priority).isSome = true ∧
    (∀ i, (hotspotEntry i h).isSome = true) ∧
    (∀ i, (quickSummaryLine i h).isSome = true) := by
  rw [identify_eq_filterMap] at hmem
  rcases List.mem_filterMap.mp hmem with ⟨f, _, hf⟩
  have hpr : PrioOK h.priority ∧ h.issues ≠ [] := by
    simp only [hotspotOf] at hf
    by_cases he : (classifyState f).2 = []
    · simp [he] at hf
    · rw [if_neg he] at hf
      cases Option.some.inj hf
      exact ⟨classifyState_prioOK f, he⟩
  have hemoji : (priorityEmoji h.priority).isSome = true := by
    rcases hpr.1 with hp | hp | hp <;> simp [priorityEmoji, hp]
  refine ⟨hpr.1, hpr.2, hemoji, ?_, ?_⟩
  · intro i
    cases e : priorityEmoji h.priority with
    | none => rw [e] at hemoji; simp at hemoji
    | some em => simp [hotspotEntry, e]
  · intro i
    unfold quickSummaryLine
    cases e : priorityEmoji h.priority with
    | none => rw [e] at hemoji; simp at hemoji
    | some em =>
      cases hi : h.issues with
      | nil => exact absurd hi hpr.2
      | cons a l => simp [e, hi]

/-- The scenario-B record list and its finding, used as concrete instances. -/
def scenFuncs : List FunctionStat := [⟨"50ms", 15, "80ms", 25, "runtime.gcBgMarkWorker"⟩]

/-- The finding the classifier produces for `scenFuncs`. -/
def scenHotspot : Hotspot :=
  ⟨"runtime.gcBgMarkWorker", 15, 25, "HIGH",
   ["Consumes 15.0% CPU directly", "Call tree consumes 25.0% total CPU",
    "Garbage collection overhead"]⟩

/-- Witness for C10 on a concrete classifier output. -/
theorem classifier_output_safe_witness :
    (priorityEmoji scenHotspot.priority).isSome = true ∧
    (hotspotEntry 1 scenHotspot).isSome = true :=
  ⟨(classifier_output_safe scenFuncs scenHotspot (by decide)).2.2.1,
   (classifier_output_safe scenFuncs scenHotspot (by decide)).2.2.2.1 1⟩

/-! Claim C2: the report is NOT a function of the two sequences alone. -/

/-- C2 (counterexample): two renders with identical hotspot and
recommendation sequences but different generation timestamps — the report
embeds `datetime.now()` — produce different bytes, so rendering is not a
function of the two sequences alone. -/
theorem report_time_dependence_counterexample :
    generate_report_text "profile" "profile.pb.gz" "2024-01-01 00:00:00" [] [] ≠
      generate_report_text "profile" "profile.pb.gz" "2024-01-01 00:00:01" [] [] := by
  decide

/-- The report factors as a prefix (from the profile name), the timestamp,
and a remainder that does not mention the timestamp. -/
theorem gen_report_eq (n p t : String) (hs : List Hotspot) (rs : List Recommendation)
    (a b : String) (ha : hotspotSection hs = some a) (hb : recSection rs = some b) :
    generate_report_text n p t hs rs =
      some (reportMetaPre n ++ t ++ reportAfterTime p hs a b) := by
  unfold generate_report_text
  rw [ha, hb]
  rfl

/-- C2 (amended): rendering is a pure, deterministic function of the hotspot
sequence, recommendation sequence, profile name, profile path and generation
timestamp.  With the sequences, name and path fixed (and rendering
succeeding), two report texts are byte-identical exactly when the timestamps
are equal: the same five inputs re-render byte-identically, and a different
timestamp always changes the bytes. -/
theorem render_deterministic_amended (n p t t' : String) (hs : List Hotspot)
    (rs : List Recommendation) (x x' : String)
    (hx : generate_report_text n p t hs rs = some x)
    (hx' : generate_report_text n p t' hs rs = some x') :
    x = x' ↔ t = t' := by
  cases ha : hotspotSection hs with
  | none => rw [generate_report_text, ha] at hx; simp at hx
  | some a =>
    cases hb : recSection rs with
    | none => rw [generate_report_text, ha, hb] at hx; simp at hx
    | some b =>
      rw [gen_report_eq n p t hs rs a b ha hb] at hx
      rw [gen_report_eq n p t' hs rs a b ha hb] at hx'
      obtain rfl : x = reportMetaPre n ++ t ++ reportAfterTime p hs a b :=
        (Option.some.inj hx).symm
      obtain rfl : x' = reportMetaPre n ++ t' ++ reportAfterTime p hs a b :=
        (Option.some.inj hx').symm
      constructor
      · intro he
        have hd := congrArg String.data he
        simp only [String.data_append] at hd
        exact String.ext (List.append_cancel_left (List.append_cancel_right hd))
      · intro he
        rw [he]

set_option maxRecDepth 16384 in
/-- Witness for the amended C2 theorem: the two renders at concrete inputs
exist and their texts agree exactly when the timestamps do. -/
theorem render_deterministic_amended_witness :
    (generate_report_text "p" "p.pb.gz" "TS-A" [] []).getD "" =
        (generate_report_text "p" "p.pb.gz" "TS-B" [] []).getD "" ↔
      ("TS-A" : String) = "TS-B" :=
  render_deterministic_amended "p" "p.pb.gz" "TS-A" "TS-B" [] []
    ((generate_report_text "p" "p.pb.gz" "TS-A" [] []).getD "")
    ((generate_report_text "p" "p.pb.gz" "TS-B" [] []).getD "")
    (by decide) (by decide)

end RatReducible

end Flamegraph
